import Mathlib

/-!
Verification of the AlignCV refinement orchestrator
(`backend/app/services/alignment_service.py` and the consistency-checker
post-processing in `backend/app/agents/consistency_checker_agent.py`).

Python JSON-like values are shallowly embedded as `PyVal`; dictionaries are
association lists of string keys.  Collaborator (LLM agent) calls are modelled
as oracles supplying one response per iteration; fallible Python code returns
`Except PyErr`.  Nested lists and dictionaries are encoded as constructor
chains (`listCons`/`dictCons`) so that equality is decidable by the kernel.
-/

/-- A Python value as produced by `json.loads` / pydantic `model_dump`.
Lists and dicts are encoded as cons-chains. -/
inductive PyVal where
  | str (s : String)
  | num (q : ℚ)
  | bool (b : Bool)
  | none
  | listNil
  | listCons (hd tl : PyVal)
  | dictNil
  | dictCons (k : String) (v tl : PyVal)
deriving DecidableEq, Repr

/-- Build an encoded Python list from a Lean list. -/
def PyVal.ofList (l : List PyVal) : PyVal := l.foldr PyVal.listCons PyVal.listNil

/-- Build an encoded Python dict from a Lean association list. -/
def PyVal.ofDict (l : List (String × PyVal)) : PyVal :=
  l.foldr (fun p acc => PyVal.dictCons p.1 p.2 acc) PyVal.dictNil

/-- Decode an encoded Python list; `none` on non-lists. -/
def PyVal.toVals : PyVal → Option (List PyVal)
  | .listNil => some []
  | .listCons h t => (PyVal.toVals t).map (h :: ·)
  | _ => Option.none

/-- Decode an encoded Python dict; `none` on non-dicts. -/
def PyVal.toPairs : PyVal → Option (List (String × PyVal))
  | .dictNil => some []
  | .dictCons k v t => (PyVal.toPairs t).map ((k, v) :: ·)
  | _ => Option.none

/-- Python truthiness (`if value:`). -/
def pyTruthy : PyVal → Bool
  | .str s => !(s == "")
  | .num q => !(q == 0)
  | .bool b => b
  | .none => false
  | .listNil => false
  | .listCons _ _ => true
  | .dictNil => false
  | .dictCons _ _ _ => true

/-- The Python exceptions the orchestrator can raise.  `nameError` is reading
an unassigned local; `valueError` carries the message of an explicit
`raise ValueError(...)`; `typeError` stands for TypeError / AttributeError on
ill-typed values; `validationError` is a pydantic `ValidationError` (wrapped
into `ValueError` by `_dict_to_resume`). -/
inductive PyErr where
  | nameError (n : String)
  | valueError (msg : String)
  | typeError
  | validationError
deriving DecidableEq, Repr

/-- Coerce a Python value to a number, as Python arithmetic and comparisons do
(`True`/`False` are the integers 1/0; anything else raises TypeError). -/
def pyNum : PyVal → Except PyErr ℚ
  | .num q => .ok q
  | .bool b => .ok (if b then 1 else 0)
  | _ => .error .typeError

/-- Require a Python string (as string slicing / formatting does). -/
def pyStr : PyVal → Except PyErr String
  | .str s => .ok s
  | _ => .error .typeError

/-- A top-level Python dict: an association list with string keys. -/
abbrev PyDict := List (String × PyVal)

/-- Dictionary lookup (`d[k]` / `d.get(k)` presence): first binding wins. -/
def dictGet (d : PyDict) (k : String) : Option PyVal :=
  (d.find? (fun p => p.1 == k)).map (·.2)

/-- Key membership (`k in d`). -/
def hasKey (d : PyDict) (k : String) : Bool := (dictGet d k).isSome

/-- `d.get(k, default)`. -/
def pyGetD (d : PyDict) (k : String) (dflt : PyVal) : PyVal := (dictGet d k).getD dflt

/-- `d[k] = v`: replace the binding in place if the key exists, else append. -/
def setKey (d : PyDict) (k : String) (v : PyVal) : PyDict :=
  if d.any (fun p => p.1 == k) then
    d.map (fun p => if p.1 == k then (k, v) else p)
  else d ++ [(k, v)]

/-- `base.update(cand)`: Python dict update, one key of `cand` at a time. -/
def dictUpdate (base cand : PyDict) : PyDict :=
  cand.foldl (fun acc p => setKey acc p.1 p.2) base

/-- Python iteration (`for x in v`): lists yield elements, dicts yield keys,
strings yield one-character strings, other values raise TypeError. -/
def pyIter (v : PyVal) : Except PyErr (List PyVal) :=
  match v.toVals with
  | some l => .ok l
  | Option.none =>
    match v.toPairs with
    | some ps => .ok (ps.map (fun p => PyVal.str p.1))
    | Option.none =>
      match v with
      | .str s => .ok (s.toList.map (fun ch => PyVal.str (String.singleton ch)))
      | _ => .error .typeError

/-- Effectful map over a list in `Except`, stopping at the first error
(the order in which a Python list comprehension evaluates and fails). -/
def emapM {α β : Type} (f : α → Except PyErr β) : List α → Except PyErr (List β)
  | [] => .ok []
  | a :: l =>
    match f a with
    | .error e => .error e
    | .ok b =>
      match emapM f l with
      | .error e => .error e
      | .ok bs => .ok (b :: bs)

/-! ## The Resume data model (`backend/app/models/resume.py`)

Pydantic validation of the fields that `_dict_to_resume` touches.  A wrong
type yields `PyErr.validationError` (pydantic `ValidationError`, re-raised as
`ValueError` by `_dict_to_resume`). -/

/-- Required `str` pydantic field. -/
def reqStrField (d : PyDict) (k : String) : Except PyErr String :=
  match dictGet d k with
  | some (.str s) => .ok s
  | _ => .error .validationError

/-- `Optional[str]` pydantic field (absent or `None` become `none`). -/
def optStrField (d : PyDict) (k : String) : Except PyErr (Option String) :=
  match dictGet d k with
  | Option.none => .ok Option.none
  | some (.str s) => .ok (some s)
  | some .none => .ok Option.none
  | some _ => .error .validationError

/-- `List[str]` pydantic field with `default_factory=list`. -/
def strListField (d : PyDict) (k : String) : Except PyErr (List String) :=
  match dictGet d k with
  | Option.none => .ok []
  | some v =>
    match v.toVals with
    | some l => emapM (fun x => match x with
        | PyVal.str s => .ok s
        | _ => .error .validationError) l
    | Option.none => .error .validationError

/-- `bool` pydantic field with a default. -/
def boolField (d : PyDict) (k : String) (dflt : Bool) : Except PyErr Bool :=
  match dictGet d k with
  | Option.none => .ok dflt
  | some (.bool b) => .ok b
  | some _ => .error .validationError

/-- `bullet_points`: the `split_bullets` validator turns a string into a list
of nonempty trimmed lines before `List[str]` validation. -/
def bulletsField (d : PyDict) (k : String) : Except PyErr (List String) :=
  match dictGet d k with
  | some (.str s) => .ok (((s.splitOn "\n").map String.trim).filter (fun x => x ≠ ""))
  | _ => strListField d k

/-- An `Experience` entry (`company` and `title` required). -/
structure Experience where
  company : String
  title : String
  location : Option String
  start_date : Option String
  end_date : Option String
  is_current : Bool
  description : Option String
  bullet_points : List String
  technologies : List String
deriving DecidableEq, Repr

/-- `Experience(**d)`. -/
def parseExperience (d : PyDict) : Except PyErr Experience := do
  let company ← reqStrField d "company"
  let title ← reqStrField d "title"
  let location ← optStrField d "location"
  let start_date ← optStrField d "start_date"
  let end_date ← optStrField d "end_date"
  let is_current ← boolField d "is_current" false
  let description ← optStrField d "description"
  let bullet_points ← bulletsField d "bullet_points"
  let technologies ← strListField d "technologies"
  pure ⟨company, title, location, start_date, end_date, is_current, description,
        bullet_points, technologies⟩

/-- An `Education` entry (`institution` and `degree` required). -/
structure Education where
  institution : String
  degree : String
  field_of_study : Option String
  location : Option String
  graduation_date : Option String
  gpa : Option String
  honors : List String
deriving DecidableEq, Repr

/-- `Education(**d)`. -/
def parseEducation (d : PyDict) : Except PyErr Education := do
  let institution ← reqStrField d "institution"
  let degree ← reqStrField d "degree"
  let field_of_study ← optStrField d "field_of_study"
  let location ← optStrField d "location"
  let graduation_date ← optStrField d "graduation_date"
  let gpa ← optStrField d "gpa"
  let honors ← strListField d "honors"
  pure ⟨institution, degree, field_of_study, location, graduation_date, gpa, honors⟩

/-- A `Project` entry (`name` and `description` required). -/
structure Project where
  name : String
  description : String
  technologies : List String
  url : Option String
  bullet_points : List String
deriving DecidableEq, Repr

/-- `Project(**d)`. -/
def parseProject (d : PyDict) : Except PyErr Project := do
  let name ← reqStrField d "name"
  let description ← reqStrField d "description"
  let technologies ← strListField d "technologies"
  let url ← optStrField d "url"
  let bullet_points ← bulletsField d "bullet_points"
  pure ⟨name, description, technologies, url, bullet_points⟩

/-- A `Certification` entry (`name` and `issuer` required). -/
structure Certification where
  name : String
  issuer : String
  date_obtained : Option String
  expiry_date : Option String
  credential_id : Option String
deriving DecidableEq, Repr

/-- `Certification(**d)`. -/
def parseCertification (d : PyDict) : Except PyErr Certification := do
  let name ← reqStrField d "name"
  let issuer ← reqStrField d "issuer"
  let date_obtained ← optStrField d "date_obtained"
  let expiry_date ← optStrField d "expiry_date"
  let credential_id ← optStrField d "credential_id"
  pure ⟨name, issuer, date_obtained, expiry_date, credential_id⟩

/-! ## `_dict_to_resume` (`alignment_service.py`, lines 211-261) -/

/-- One element of `[Experience(**exp) if isinstance(exp, dict) else exp
for exp in ...]`: dict entries are parsed (and may raise), non-dict entries
are kept as they are. -/
def entryConv {α : Type} (parse : PyDict → Except PyErr α) : PyVal → Except PyErr (α ⊕ PyVal)
  | .dictCons k v t =>
    match (PyVal.dictCons k v t).toPairs with
    | some d => (parse d).map Sum.inl
    | Option.none => .ok (Sum.inr (PyVal.dictCons k v t))
  | .dictNil =>
    match parse [] with
    | .ok a => .ok (Sum.inl a)
    | .error e => .error e
  | v => .ok (Sum.inr v)

/-- The `try`-block around one nested-section conversion: on any exception the
whole section is replaced by the empty list (lines 218-226). -/
def convertEntries {α : Type} (parse : PyDict → Except PyErr α) (v : PyVal) :
    List (α ⊕ PyVal) :=
  match pyIter v with
  | .error _ => []
  | .ok items =>
    match emapM (entryConv parse) items with
    | .error _ => []
    | .ok r => r

/-- Resolve one nested section: absent keys default to `[]`; a truthy value is
run through the guarded conversion and then `Resume(**...)` validation, which
rejects any element that is not a parsed entry; a falsy value is left
untouched, so only an empty list validates. -/
def resolveSection {α : Type} (parse : PyDict → Except PyErr α) (v? : Option PyVal) :
    Except PyErr (List α) :=
  match v? with
  | Option.none => .ok []
  | some v =>
    if pyTruthy v then
      emapM (fun e => match e with
        | Sum.inl a => .ok a
        | Sum.inr _ => .error PyErr.validationError) (convertEntries parse v)
    else
      match v with
      | .listNil => .ok []
      | _ => .error .validationError

/-- The `normalize_lists` validator on `technical_skills` / `soft_skills` /
`languages`: a string is split on commas into nonempty trimmed items. -/
def splitSkills (v? : Option PyVal) : Except PyErr (List String) :=
  match v? with
  | Option.none => .ok []
  | some (.str s) => .ok (((s.splitOn ",").map String.trim).filter (fun x => x ≠ ""))
  | some v =>
    match v.toVals with
    | some l => emapM (fun x => match x with
        | PyVal.str s => .ok s
        | _ => .error PyErr.validationError) l
    | Option.none => .error .validationError

/-- Plain `List[str]` field of `Resume` (publications, awards). -/
def plainStrList (v? : Option PyVal) : Except PyErr (List String) :=
  match v? with
  | Option.none => .ok []
  | some v =>
    match v.toVals with
    | some l => emapM (fun x => match x with
        | PyVal.str s => .ok s
        | _ => .error PyErr.validationError) l
    | Option.none => .error .validationError

/-- A validated `Resume` object (the fields the orchestrator touches). -/
structure ResumeObj where
  full_name : String
  summary : Option String
  technical_skills : List String
  soft_skills : List String
  languages : List String
  experiences : List Experience
  education : List Education
  projects : List Project
  certifications : List Certification
  publications : List String
  awards : List String
deriving DecidableEq, Repr

/-- The message of the `ValueError` raised at line 215 of
`alignment_service.py`. -/
def missingFullNameMsg : String := "Resume dictionary missing required field: full_name"

/-- `AlignmentService._dict_to_resume`: raises `ValueError` when the
`full_name` key is absent, converts each nested section with a `try` that
empties the section on failure, then builds the `Resume` (pydantic
validation). -/
def dict_to_resume (d : PyDict) : Except PyErr ResumeObj :=
  if hasKey d "full_name" then do
    let exps ← resolveSection parseExperience (dictGet d "experiences")
    let edus ← resolveSection parseEducation (dictGet d "education")
    let projs ← resolveSection parseProject (dictGet d "projects")
    let certs ← resolveSection parseCertification (dictGet d "certifications")
    let full_name ← reqStrField d "full_name"
    let summary ← optStrField d "summary"
    let technical_skills ← splitSkills (dictGet d "technical_skills")
    let soft_skills ← splitSkills (dictGet d "soft_skills")
    let languages ← splitSkills (dictGet d "languages")
    let publications ← plainStrList (dictGet d "publications")
    let awards ← plainStrList (dictGet d "awards")
    pure ⟨full_name, summary, technical_skills, soft_skills, languages, exps, edus,
          projs, certs, publications, awards⟩
  else .error (.valueError missingFullNameMsg)

/-! ## Diff objects (`models/alignment.py`, `_build_diff_objects`) -/

/-- The `ChangeType` enum. -/
inductive ChangeType where
  | added
  | modified
  | removed
  | reordered
deriving DecidableEq, Repr

/-- `ChangeType(s) if s in [e.value for e in ChangeType] else ChangeType.MODIFIED`:
values outside the enum (including non-strings) default to `modified`. -/
def changeTypeOf : PyVal → ChangeType
  | .str "added" => .added
  | .str "modified" => .modified
  | .str "removed" => .removed
  | .str "reordered" => .reordered
  | _ => .modified

/-- A `DiffObject` record. -/
structure DiffObject where
  section_ : String
  field : String
  change_type : ChangeType
  original_value : Option PyVal
  new_value : Option PyVal
  reason : Option String
  confidence_score : Option ℚ
deriving DecidableEq, Repr

/-- Validate a present-or-absent `Optional[str]` value for `DiffObject`. -/
def diffOptStr : Option PyVal → Option (Option String)
  | Option.none => some Option.none
  | some (.str s) => some (some s)
  | some .none => some Option.none
  | some _ => Option.none

/-- Validate `confidence_score : Optional[float]` with `ge=0.0, le=1.0`. -/
def diffOptConf : Option PyVal → Option (Option ℚ)
  | Option.none => some Option.none
  | some .none => some Option.none
  | some (.num q) => if 0 ≤ q ∧ q ≤ 1 then some (some q) else Option.none
  | some _ => Option.none

/-- One pass of the `try` body in `_build_diff_objects`: build a `DiffObject`
from a raw change item, `none` when any step raises (then the item is
skipped).  Non-dict items raise `AttributeError` on `.get` and are skipped. -/
def tryDiff (v : PyVal) : Option DiffObject :=
  match v.toPairs with
  | Option.none => Option.none
  | some c =>
    let ct := changeTypeOf (pyGetD c "change_type" (.str "modified"))
    match diffOptStr (some (pyGetD c "section" (.str "unknown"))),
          diffOptStr (some (pyGetD c "field" (.str "text"))),
          diffOptStr (dictGet c "reason"),
          diffOptConf (dictGet c "confidence_score") with
    | some (some s), some (some f), some r, some conf =>
      some ⟨s, f, ct, dictGet c "original_value", dictGet c "new_value", r, conf⟩
    | _, _, _, _ => Option.none

/-- `AlignmentService._build_diff_objects`: convert each change dict,
skipping (never aborting on) the ones whose conversion fails. -/
def build_diff_objects (changes : List PyVal) : List DiffObject :=
  changes.filterMap tryDiff

/-! ## Run metrics (`alignment_service.py`, lines 167-176) -/

/-- `c.get("section", "")` for the `sections_modified` set comprehension;
non-dict change items raise `AttributeError`. -/
def sectionVal (v : PyVal) : Except PyErr PyVal :=
  match v.toPairs with
  | some c => .ok (pyGetD c "section" (.str ""))
  | Option.none => .error .typeError

/-- `len(set(c.get("section", "") for c in all_changes))`. -/
def sectionsModifiedCount (changes : List PyVal) : Except PyErr ℕ :=
  match emapM sectionVal changes with
  | .error e => .error e
  | .ok secs => .ok secs.dedup.length

/-- One summand of the confidence sum: `c.get("confidence_score", 0.0)`,
which must be numeric for `sum` (missing values contribute `0.0`). -/
def confTerm (v : PyVal) : Except PyErr ℚ :=
  match v.toPairs with
  | some c =>
    match dictGet c "confidence_score" with
    | Option.none => .ok 0
    | some w => pyNum w
  | Option.none => .error .typeError

/-- `sum(c.get("confidence_score", 0.0) for c in all_changes) /
max(len(all_changes), 1)`. -/
def avgConfidence (changes : List PyVal) : Except PyErr ℚ :=
  match emapM confTerm changes with
  | .error e => .error e
  | .ok ts => .ok (ts.sum / ((max changes.length 1 : ℕ) : ℚ))

/-- The `AlignmentMetrics` record (validated pydantic fields). -/
structure AlignmentMetrics where
  keyword_match_score : ℚ
  original_keyword_score : ℚ
  ats_score : ℚ
  total_changes : ℕ
  sections_modified : ℕ
  iterations_count : ℕ
  avg_confidence : ℚ
deriving DecidableEq, Repr

/-- Construction of `AlignmentMetrics(...)` at lines 167-176: evaluate the
derived arguments, then pydantic range validation (`keyword_match_score` and
`original_keyword_score` in `[0,1]`, `ats_score` in `[0,100]`,
`avg_confidence` in `[0,1]`). -/
def mkMetrics (kw origKw ats : ℚ) (changes : List PyVal) (iters : ℕ) :
    Except PyErr AlignmentMetrics :=
  match sectionsModifiedCount changes with
  | .error e => .error e
  | .ok sm =>
    match avgConfidence changes with
    | .error e => .error e
    | .ok avg =>
      if 0 ≤ kw ∧ kw ≤ 1 ∧ 0 ≤ origKw ∧ origKw ≤ 1 ∧ 0 ≤ ats ∧ ats ≤ 100 ∧
         0 ≤ avg ∧ avg ≤ 1 then
        .ok ⟨kw, origKw, ats, changes.length, sm, iters, avg⟩
      else .error .validationError

/-! ## Consistency checker post-processing
(`consistency_checker_agent.py`, `ConsistencyCheckerAgent.check`, lines 131-160) -/

/-- The hard-coded result returned when `exit_loop` was called or the critique
text is exactly `APPROVED` (lines 132-142). -/
def approvedConsistencyResult : PyDict :=
  [("ats_score", .num 95), ("keyword_match_score", .num (19 / 20)),
   ("critique", .str "APPROVED"), ("approved", .bool true),
   ("missing_keywords", PyVal.listNil),
   ("strengths", PyVal.ofList [.str "Fully optimized for ATS"]),
   ("weaknesses", PyVal.listNil), ("improvement_priority", PyVal.listNil)]

/-- The defaulted result built in the `except json.JSONDecodeError` branch
(lines 149-160): the unparseable text is kept as the critique and the
check reports `ats_score 0.0`, `approved False` instead of raising. -/
def unparsedConsistencyResult (critiqueStr : String) : PyDict :=
  [("ats_score", .num 0), ("keyword_match_score", .num 0),
   ("critique", .str critiqueStr), ("approved", .bool false),
   ("missing_keywords", PyVal.listNil), ("strengths", PyVal.listNil),
   ("weaknesses", PyVal.listNil), ("improvement_priority", PyVal.listNil)]

/-- The tail of `ConsistencyCheckerAgent.check` after the response text has
been extracted and markdown fences stripped: `exitLoopSignalled` is whether
`EXIT_LOOP` appears in the raw events, and `parsedJson` is the outcome of
`json.loads(critique_str)` (`none` when that raises `JSONDecodeError`). -/
def checkPostprocess (exitLoopSignalled : Bool) (critiqueStr : String)
    (parsedJson : Option PyDict) : PyDict :=
  if exitLoopSignalled || (critiqueStr.trim.toUpper == "APPROVED") then
    approvedConsistencyResult
  else
    match parsedJson with
    | some j => setKey j "approved" (.bool false)
    | Option.none => unparsedConsistencyResult critiqueStr

/-! ## The refinement loop (`AlignmentService.align_resume`, lines 66-198) -/

/-- The collaborator (LLM agent) responses available to one run: the two cold
calls and, for every iteration number, the rewrite and scoring results.  An
`Except.error` response is the collaborator call raising. -/
structure Collab where
  jdResp : Except PyErr PyDict
  gapResp : Except PyErr PyDict
  rewriteResp : ℕ → Except PyErr PyDict
  scoreResp : ℕ → Except PyErr PyDict

/-- The loop state of `align_resume`, plus ghost trace fields (`scoreInputs`
records the dict passed to each consistency check; `calls` records the
collaborator calls made). -/
structure PipeState where
  draft : PyDict
  gap : PyDict
  allChanges : List PyVal
  iteration : ℕ
  final_ats_score : ℚ
  final_keyword_score : ℚ
  scoreInputs : List PyDict
  calls : List String
deriving DecidableEq, Repr

/-- The `updated_resume` entry of the rewrite result, defaulting to an empty
dict, followed by its uses: the value must be a dict (lines 109, 115, 121). -/
def getUpdatedResume (rw : PyDict) : Except PyErr PyDict :=
  match dictGet rw "updated_resume" with
  | Option.none => .ok []
  | some v =>
    match v.toPairs with
    | some d => .ok d
    | Option.none => .error .typeError

/-- `rewrite_result.get("changes", [])` followed by
`all_changes.extend(changes)`: any iterable is accepted. -/
def getChanges (rw : PyDict) : Except PyErr (List PyVal) :=
  match dictGet rw "changes" with
  | Option.none => .ok []
  | some v => pyIter v

/-- One iteration of the refinement loop (lines 96-149).  Returns the new
state and whether the loop `break`s.  Note, as in the source: the rewrite is
applied to the current draft; the merged dict built at line 115 is never read
again; the consistency check receives `updated_resume_dict` and line 135 sets
the next draft to `updated_resume_dict` as well. -/
def loopBody (c : Collab) (s : PipeState) : Except PyErr (PipeState × Bool) :=
  match dict_to_resume s.draft with
  | .error e => .error e
  | .ok _ =>
    match c.rewriteResp (s.iteration + 1) with
    | .error e => .error e
    | .ok rw =>
      match getUpdatedResume rw with
      | .error e => .error e
      | .ok updated =>
        match getChanges rw with
        | .error e => .error e
        | .ok changes =>
          let allChanges := s.allChanges ++ changes
          let _merged := if updated ≠ [] then dictUpdate s.draft updated else s.draft
          match c.scoreResp (s.iteration + 1) with
          | .error e => .error e
          | .ok score =>
            match pyNum (pyGetD score "ats_score" (.num 0)) with
            | .error e => .error e
            | .ok ats =>
              match pyNum (pyGetD score "keyword_match_score" (.num 0)) with
              | .error e => .error e
              | .ok kw =>
                let critique := pyGetD score "critique" (.str "")
                let approved := pyTruthy (pyGetD score "approved" (.bool false))
                let s' : PipeState :=
                  { draft := updated, gap := s.gap, allChanges := allChanges,
                    iteration := s.iteration + 1, final_ats_score := ats,
                    final_keyword_score := kw,
                    scoreInputs := s.scoreInputs ++ [updated],
                    calls := s.calls ++ ["rewrite_agent", "consistency_checker"] }
                if approved || decide (95 ≤ ats) then .ok (s', true)
                else
                  match pyStr critique with
                  | .error e => .error e
                  | .ok _ =>
                    let gap' := setKey (setKey (setKey s.gap "critique" critique)
                      "missing_keywords" (pyGetD score "missing_keywords" PyVal.listNil))
                      "improvement_priority"
                      (pyGetD score "improvement_priority" PyVal.listNil)
                    .ok ({ s' with gap := gap' }, false)

/-- The `while iteration < self.max_iterations` loop, with explicit fuel
(the initial fuel `m` always suffices since each pass increments
`iteration`). -/
def runLoop (c : Collab) (m : ℕ) : ℕ → PipeState → Except PyErr PipeState
  | 0, s => .ok s
  | fuel + 1, s =>
    if s.iteration < m then
      match loopBody c s with
      | .error e => .error e
      | .ok (s', true) => .ok s'
      | .ok (s', false) => runLoop c m fuel s'
    else .ok s

/-- Everything `align_resume` computes (the successful prefix): the final loop
state, the aligned resume (line 155), the metrics (lines 167-176) and the
diff objects (line 179). -/
structure CoreOut where
  state : PipeState
  aligned_resume : ResumeObj
  metrics : AlignmentMetrics
  diffs : List DiffObject
deriving DecidableEq, Repr

/-- The loop state just before the first iteration (lines 90-94): the draft is
the dumped input resume, no changes, iteration 0, scores 0. -/
def initState (resume0 gap : PyDict) : PipeState :=
  { draft := resume0, gap := gap, allChanges := [], iteration := 0,
    final_ats_score := 0, final_keyword_score := 0, scoreInputs := [],
    calls := ["jd_analyzer", "gap_analyzer"] }

/-- `align_resume` up to (but excluding) the `AlignmentResponse(...)`
construction: JD analysis, gap analysis, the refinement loop, the final
`_dict_to_resume`, `AlignmentMetrics(...)` and `_build_diff_objects`. -/
def align_resume_core (c : Collab) (resume0 : PyDict) (max_iterations : ℕ) :
    Except PyErr CoreOut :=
  match c.jdResp with
  | .error e => .error e
  | .ok _jd =>
    match c.gapResp with
    | .error e => .error e
    | .ok gap =>
      let initialMatch := pyGetD gap "overall_match_percentage" (.num 0)
      match runLoop c max_iterations max_iterations (initState resume0 gap) with
      | .error e => .error e
      | .ok s =>
        match dict_to_resume s.draft with
        | .error e => .error e
        | .ok aligned =>
          match pyNum initialMatch with
          | .error e => .error e
          | .ok im =>
            match mkMetrics s.final_keyword_score (im / 100) s.final_ats_score
                s.allChanges s.iteration with
            | .error e => .error e
            | .ok metrics =>
              .ok ⟨s, aligned, metrics, build_diff_objects s.allChanges⟩

/-- Every local name assigned (or bound as a parameter) anywhere in the body
of `align_resume`, transcribed from the source. -/
def alignResumeLocals : List String :=
  ["self", "request", "start_time", "original_resume", "job_description",
   "jd_analysis", "gap_analysis", "initial_match", "current_resume_draft",
   "all_changes", "iteration", "final_ats_score", "final_keyword_score",
   "rewrite_result", "updated_resume_dict", "changes", "consistency_result",
   "ats_score", "keyword_score", "critique", "approved", "aligned_resume",
   "pdf_url", "latex_source", "processing_time", "metrics", "diff_objects",
   "response"]

/-- Reading a local variable: a `NameError` if the name was never assigned in
the function body. -/
def readLocal (locals : List String) (n : String) : Except PyErr Unit :=
  if n ∈ locals then .ok () else .error (.nameError n)

/-- The `AlignmentResponse` record as far as the orchestrator fills it. -/
structure AlignmentResponse where
  aligned_resume : ResumeObj
  original_resume : PyDict
  metrics : AlignmentMetrics
  changes : List DiffObject
deriving DecidableEq, Repr

/-- `AlignmentService.align_resume`: run the core pipeline, then build
`AlignmentResponse(...)`, whose argument list reads the local `template_id`
(line 187) - a name that is never assigned in the function body. -/
def align_resume (c : Collab) (resume0 : PyDict) (max_iterations : ℕ) :
    Except PyErr AlignmentResponse :=
  match align_resume_core c resume0 max_iterations with
  | .error e => .error e
  | .ok out =>
    match readLocal alignResumeLocals "template_id" with
    | .error e => .error e
    | .ok _ => .ok ⟨out.aligned_resume, resume0, out.metrics, out.diffs⟩

/-- The number of loop iterations actually executed by a successful run
(`0` as a dummy for failed runs). -/
def coreIterations (c : Collab) (resume0 : PyDict) (m : ℕ) : ℕ :=
  match align_resume_core c resume0 m with
  | .ok o => o.state.iteration
  | .error _ => 0

/-- The `iterations_count` reported in the metrics of a successful run
(`0` as a dummy for failed runs). -/
def coreReportedIterations (c : Collab) (resume0 : PyDict) (m : ℕ) : ℕ :=
  match align_resume_core c resume0 m with
  | .ok o => o.metrics.iterations_count
  | .error _ => 0

/-- Whether the scoring response of iteration `i` satisfies the termination
test of line 140: a truthy `approved` or a numeric `ats_score` of at least
95. -/
def iterPasses (c : Collab) (i : ℕ) : Bool :=
  match c.scoreResp i with
  | .error _ => false
  | .ok score =>
    pyTruthy (pyGetD score "approved" (.bool false)) ||
      (match pyNum (pyGetD score "ats_score" (.num 0)) with
       | .ok q => decide (95 ≤ q)
       | .error _ => false)

/-! ## Association-list lemmas about `setKey` / `dictUpdate` -/

theorem dictGet_cons_self (p : String × PyVal) (t : PyDict) (k : String)
    (h : p.1 = k) : dictGet (p :: t) k = some p.2 := by
  simp [dictGet, List.find?, h]

theorem dictGet_cons_ne (p : String × PyVal) (t : PyDict) (k : String)
    (h : p.1 ≠ k) : dictGet (p :: t) k = dictGet t k := by
  have h1 : (p.1 == k) = false := by simp [h]
  simp [dictGet, List.find?, h1]

theorem dictGet_map_setFun (d : PyDict) (k k2 : String) (v : PyVal) (hne : k ≠ k2) :
    dictGet (d.map (fun p => if p.1 == k2 then (k2, v) else p)) k = dictGet d k := by
  induction d with
  | nil => rfl
  | cons p t ih =>
    by_cases hp : p.1 = k2
    · have h1 : (p.1 == k2) = true := by simp [hp]
      simp only [List.map_cons, h1, if_true]
      rw [dictGet_cons_ne _ _ _ (Ne.symm hne), dictGet_cons_ne p t k (by rw [hp]; exact Ne.symm hne)]
      exact ih
    · have h1 : (p.1 == k2) = false := by simp [hp]
      simp only [List.map_cons, h1, Bool.false_eq_true, if_false]
      by_cases hk : p.1 = k
      · rw [dictGet_cons_self _ _ _ hk, dictGet_cons_self _ _ _ hk]
      · rw [dictGet_cons_ne _ _ _ hk, dictGet_cons_ne _ _ _ hk]
        exact ih

theorem dictGet_eq_none_of_not_any (d : PyDict) (k : String)
    (h : d.any (fun p => p.1 == k) = false) : dictGet d k = Option.none := by
  induction d with
  | nil => rfl
  | cons p t ih =>
    simp only [List.any_cons, Bool.or_eq_false_iff] at h
    simp only [dictGet, List.find?, h.1]
    exact ih h.2

theorem dictGet_setKey_self (d : PyDict) (k : String) (v : PyVal) :
    dictGet (setKey d k v) k = some v := by
  unfold setKey
  split
  · rename_i hany
    induction d with
    | nil => simp at hany
    | cons p t ih =>
      by_cases hp : p.1 = k
      · have h1 : (p.1 == k) = true := by simp [hp]
        simp only [List.map_cons, h1, if_true]
        exact dictGet_cons_self _ _ _ rfl
      · have h1 : (p.1 == k) = false := by simp [hp]
        simp only [List.any_cons, h1, Bool.false_or] at hany
        simp only [List.map_cons, h1, Bool.false_eq_true, if_false]
        rw [dictGet_cons_ne _ _ _ hp]
        exact ih hany
  · rename_i hany
    rw [Bool.not_eq_true] at hany
    simp only [dictGet, List.find?_append,
      dictGet_eq_none_of_not_any d k hany]
    have : List.find? (fun p => p.1 == k) d = Option.none := by
      have h3 := dictGet_eq_none_of_not_any d k hany
      unfold dictGet at h3
      cases hf : List.find? (fun p => p.1 == k) d
      · rfl
      · rw [hf] at h3; simp at h3
    rw [this]
    simp [List.find?]

theorem dictGet_setKey_ne (d : PyDict) (k k2 : String) (v : PyVal) (hne : k ≠ k2) :
    dictGet (setKey d k2 v) k = dictGet d k := by
  unfold setKey
  split
  · exact dictGet_map_setFun d k k2 v hne
  · have h2 : (k2 == k) = false := by simp [Ne.symm hne]
    simp only [dictGet, List.find?_append, List.find?, h2]
    cases List.find? (fun p => p.1 == k) d <;> rfl

theorem hasKey_false_cons (p : String × PyVal) (t : PyDict) (k : String)
    (h : hasKey (p :: t) k = false) : p.1 ≠ k ∧ hasKey t k = false := by
  by_cases hp : p.1 = k
  · rw [hasKey, dictGet_cons_self _ _ _ hp] at h
    simp at h
  · rw [hasKey, dictGet_cons_ne _ _ _ hp] at h
    exact ⟨hp, h⟩

theorem hasKey_false_of_not_mem (d : PyDict) (k : String)
    (h : k ∉ d.map Prod.fst) : hasKey d k = false := by
  induction d with
  | nil => rfl
  | cons p t ih =>
    simp only [List.map_cons, List.mem_cons, not_or] at h
    rw [hasKey, dictGet_cons_ne _ _ _ (fun he => h.1 he.symm)]
    exact ih h.2

theorem dictUpdate_cons (base : PyDict) (p : String × PyVal) (t : PyDict) :
    dictUpdate base (p :: t) = dictUpdate (setKey base p.1 p.2) t := rfl

theorem dictUpdate_get_absent (base cand : PyDict) (k : String)
    (h : hasKey cand k = false) : dictGet (dictUpdate base cand) k = dictGet base k := by
  induction cand generalizing base with
  | nil => rfl
  | cons p t ih =>
    obtain ⟨hp, ht⟩ := hasKey_false_cons p t k h
    rw [dictUpdate_cons, ih _ ht, dictGet_setKey_ne _ _ _ _ (fun hk => hp hk.symm)]

theorem dictUpdate_get_present (base cand : PyDict) (k : String)
    (hnd : (cand.map Prod.fst).Nodup) (h : hasKey cand k = true) :
    dictGet (dictUpdate base cand) k = dictGet cand k := by
  induction cand generalizing base with
  | nil => simp [hasKey, dictGet] at h
  | cons p t ih =>
    simp only [List.map_cons, List.nodup_cons] at hnd
    by_cases hp : p.1 = k
    · have htk : hasKey t k = false :=
        hasKey_false_of_not_mem t k (hp ▸ hnd.1)
      rw [dictUpdate_cons, dictUpdate_get_absent _ _ _ htk,
        show setKey base p.1 p.2 = setKey base k p.2 from by rw [hp],
        dictGet_setKey_self, dictGet_cons_self _ _ _ hp]
    · rw [dictUpdate_cons,
        ih _ hnd.2 (by rw [hasKey, dictGet_cons_ne _ _ _ hp] at h; exact h),
        dictGet_cons_ne _ _ _ hp]

/-! ## Lemmas about `emapM` and the encoders -/

theorem emapM_ok_of_forall {α β : Type} (f : α → Except PyErr β) (g : α → β)
    (l : List α) (h : ∀ a ∈ l, f a = .ok (g a)) : emapM f l = .ok (l.map g) := by
  induction l with
  | nil => rfl
  | cons a t ih =>
    have ha := h a (List.mem_cons_self a t)
    simp only [emapM, ha, ih (fun x hx => h x (List.mem_cons_of_mem a hx)), List.map_cons]

theorem emapM_error_of_mem {α β : Type} (f : α → Except PyErr β) (l : List α)
    (a : α) (ha : a ∈ l) (e : PyErr) (he : f a = .error e) :
    ∃ e2, emapM f l = .error e2 := by
  induction l with
  | nil => cases ha
  | cons b t ih =>
    cases List.mem_cons.mp ha with
    | inl hab =>
      subst hab
      exact ⟨e, by simp only [emapM, he]⟩
    | inr hat =>
      cases hb : f b with
      | error e3 => exact ⟨e3, by simp only [emapM, hb]⟩
      | ok vb =>
        obtain ⟨e2, h2⟩ := ih hat
        exact ⟨e2, by simp only [emapM, hb, h2]⟩

theorem emapM_error_mem {α β : Type} (f : α → Except PyErr β) (l : List α)
    (e : PyErr) (h : emapM f l = .error e) : ∃ a ∈ l, f a = .error e := by
  induction l with
  | nil => simp [emapM] at h
  | cons b t ih =>
    cases hb : f b with
    | error e3 =>
      rw [emapM, hb] at h
      injection h with h
      exact ⟨b, List.mem_cons_self b t, by rw [hb, h]⟩
    | ok vb =>
      rw [emapM, hb] at h
      cases ht : emapM f t with
      | error e2 =>
        rw [ht] at h
        injection h with h
        obtain ⟨a, ha, hfa⟩ := ih (by rw [ht, h])
        exact ⟨a, List.mem_cons_of_mem b ha, hfa⟩
      | ok bs => rw [ht] at h; cases h

theorem toVals_ofList (l : List PyVal) : (PyVal.ofList l).toVals = some l := by
  induction l with
  | nil => rfl
  | cons a t ih => simp [PyVal.ofList, PyVal.toVals] at ih ⊢; simp [ih]

theorem toPairs_ofDict (l : List (String × PyVal)) : (PyVal.ofDict l).toPairs = some l := by
  induction l with
  | nil => rfl
  | cons a t ih => simp [PyVal.ofDict, PyVal.toPairs] at ih ⊢; simp [ih]

/-! ## Metrics lemmas -/

theorem mkMetrics_fields (kw origKw ats : ℚ) (cs : List PyVal) (it : ℕ)
    (M : AlignmentMetrics) (h : mkMetrics kw origKw ats cs it = .ok M) :
    M.keyword_match_score = kw ∧ M.original_keyword_score = origKw ∧
    M.ats_score = ats ∧ M.total_changes = cs.length ∧
    M.iterations_count = it ∧ avgConfidence cs = .ok M.avg_confidence := by
  unfold mkMetrics at h
  split at h
  · cases h
  · rename_i sm hsm
    split at h
    · cases h
    · rename_i avg havg
      split at h
      · injection h with h
        subst h
        exact ⟨rfl, rfl, rfl, rfl, rfl, by rw [havg]⟩
      · cases h

/-! ## Loop lemmas -/

theorem loopBody_iteration (c : Collab) (s s' : PipeState) (b : Bool)
    (h : loopBody c s = .ok (s', b)) : s'.iteration = s.iteration + 1 := by
  unfold loopBody at h
  simp only [] at h
  repeat' split at h
  all_goals (try cases h)
  all_goals rfl

theorem loopBody_continue_not_passes (c : Collab) (s s' : PipeState)
    (h : loopBody c s = .ok (s', false)) : iterPasses c (s.iteration + 1) = false := by
  unfold loopBody at h
  simp only [] at h
  repeat' split at h
  all_goals (try cases h)
  all_goals simp_all [iterPasses]

theorem runLoop_not_passes (c : Collab) (m : ℕ) :
    ∀ fuel s0 s, runLoop c m fuel s0 = .ok s →
      ∀ i, s0.iteration < i → i < s.iteration → iterPasses c i = false := by
  intro fuel
  induction fuel with
  | zero =>
    intro s0 s h i h1 h2
    rw [runLoop] at h
    injection h with h
    subst h
    omega
  | succ fuel ih =>
    intro s0 s h i h1 h2
    rw [runLoop] at h
    split at h
    · cases hb : loopBody c s0 with
      | error e => rw [hb] at h; cases h
      | ok p =>
        rw [hb] at h
        obtain ⟨s1, b⟩ := p
        have hit := loopBody_iteration c s0 s1 b hb
        cases b with
        | true =>
          injection h with h
          subst h
          omega
        | false =>
          by_cases hi : i = s0.iteration + 1
          · subst hi
            exact loopBody_continue_not_passes c s0 s1 hb
          · exact ih s1 s h i (by omega) h2
    · injection h with h
      subst h
      omega

theorem runLoop_iteration_le (c : Collab) (m : ℕ) :
    ∀ fuel s0 s, runLoop c m fuel s0 = .ok s → s0.iteration ≤ m → s.iteration ≤ m := by
  intro fuel
  induction fuel with
  | zero =>
    intro s0 s h h0
    rw [runLoop] at h
    injection h with h
    subst h
    exact h0
  | succ fuel ih =>
    intro s0 s h h0
    rw [runLoop] at h
    split at h
    · rename_i hlt
      cases hb : loopBody c s0 with
      | error e => rw [hb] at h; cases h
      | ok p =>
        rw [hb] at h
        obtain ⟨s1, b⟩ := p
        have hit := loopBody_iteration c s0 s1 b hb
        cases b with
        | true =>
          injection h with h
          subst h
          omega
        | false => exact ih s1 s h (by omega)
    · injection h with h
      subst h
      exact h0

theorem runLoop_iteration_gt (c : Collab) (m : ℕ) :
    ∀ fuel s0 s, runLoop c m fuel s0 = .ok s → s0.iteration < m →
      m ≤ fuel + s0.iteration → s0.iteration < s.iteration := by
  intro fuel
  induction fuel with
  | zero =>
    intro s0 s h h0 hf
    omega
  | succ fuel ih =>
    intro s0 s h h0 hf
    rw [runLoop] at h
    split at h
    · cases hb : loopBody c s0 with
      | error e => rw [hb] at h; cases h
      | ok p =>
        rw [hb] at h
        obtain ⟨s1, b⟩ := p
        have hit := loopBody_iteration c s0 s1 b hb
        cases b with
        | true =>
          injection h with h
          subst h
          omega
        | false =>
          by_cases hm : s1.iteration < m
          · have := ih s1 s h hm (by omega)
            omega
          · have hstop : runLoop c m fuel s1 = .ok s1 := by
              cases fuel with
              | zero => rw [runLoop]
              | succ fuel2 => rw [runLoop, if_neg hm]
            simp only [] at h
            rw [hstop] at h
            injection h with h
            subst h
            omega
    · omega

theorem core_ok_spec (c : Collab) (r0 : PyDict) (m : ℕ) (o : CoreOut)
    (h : align_resume_core c r0 m = .ok o) :
    ∃ gap, c.gapResp = .ok gap ∧ runLoop c m m (initState r0 gap) = .ok o.state ∧
      o.metrics.iterations_count = o.state.iteration ∧
      o.metrics.total_changes = o.state.allChanges.length ∧
      o.diffs = build_diff_objects o.state.allChanges := by
  unfold align_resume_core at h
  cases hjd : c.jdResp with
  | error e => rw [hjd] at h; cases h
  | ok jd =>
    rw [hjd] at h
    cases hgap : c.gapResp with
    | error e => rw [hgap] at h; cases h
    | ok gap =>
      rw [hgap] at h
      simp only [] at h
      cases hloop : runLoop c m m (initState r0 gap) with
      | error e => rw [hloop] at h; cases h
      | ok s =>
        rw [hloop] at h
        simp only [] at h
        cases hres : dict_to_resume s.draft with
        | error e => rw [hres] at h; cases h
        | ok aligned =>
          rw [hres] at h
          simp only [] at h
          cases him : pyNum (pyGetD gap "overall_match_percentage" (.num 0)) with
          | error e => rw [him] at h; cases h
          | ok im =>
            rw [him] at h
            simp only [] at h
            cases hmk : mkMetrics s.final_keyword_score (im / 100) s.final_ats_score
                s.allChanges s.iteration with
            | error e => rw [hmk] at h; cases h
            | ok metrics =>
              rw [hmk] at h
              simp only [] at h
              injection h with h
              subst h
              have hf := mkMetrics_fields _ _ _ _ _ _ hmk
              exact ⟨gap, rfl, hloop, hf.2.2.2.2.1, hf.2.2.2.1, rfl⟩

/-! ## Concrete fixtures -/

/-- A minimal valid resume dump. -/
def benignResume : PyDict := [("full_name", .str "John Doe")]

/-- Collaborators that answer every call well-formedly and score 96 at once. -/
def benignCollab : Collab :=
  { jdResp := .ok []
    gapResp := .ok [("overall_match_percentage", .num 40)]
    rewriteResp := fun _ => .ok
      [("updated_resume", PyVal.ofDict [("full_name", .str "John Doe")]),
       ("changes", PyVal.listNil)]
    scoreResp := fun _ => .ok [("ats_score", .num 96), ("keyword_match_score", .num (4/5))] }

/-- Collaborators whose scoring fails the threshold on iteration 1 and passes
on iteration 2. -/
def twoStepCollab : Collab :=
  { jdResp := .ok []
    gapResp := .ok [("overall_match_percentage", .num 40)]
    rewriteResp := fun _ => .ok
      [("updated_resume", PyVal.ofDict [("full_name", .str "John Doe")]),
       ("changes", PyVal.listNil)]
    scoreResp := fun i =>
      if i = 1 then
        .ok [("ats_score", .num 40), ("critique", .str "needs work")]
      else
        .ok [("ats_score", .num 96)] }

/-- Claim C1: `align_resume` never successfully returns an
`AlignmentResponse`, and every execution that completes the refinement loop
and reaches the response construction raises a `NameError` - the local
`template_id` is read in the `AlignmentResponse(...)` argument list but is
never assigned anywhere in the function body. -/
theorem c1_template_id_name_error (c : Collab) (r0 : PyDict) (m : ℕ) :
    (align_resume c r0 m).isOk = false ∧
    ((align_resume_core c r0 m).isOk = true →
      align_resume c r0 m = .error (.nameError "template_id")) := by
  have hrl : readLocal alignResumeLocals "template_id" = .error (.nameError "template_id") := by
    rw [readLocal, if_neg]
    intro hmem
    rw [alignResumeLocals] at hmem
    simp at hmem
  constructor
  · unfold align_resume
    cases h : align_resume_core c r0 m with
    | error e => rfl
    | ok o => rw [hrl]; rfl
  · intro hok
    unfold align_resume
    cases h : align_resume_core c r0 m with
    | error e => rw [h] at hok; cases hok
    | ok o => rw [hrl]

/-- Witness for C1 at concrete collaborators that finish in one iteration. -/
theorem c1_witness :
    (align_resume_core benignCollab benignResume 1).isOk = true ∧
    align_resume benignCollab benignResume 1 = .error (.nameError "template_id") :=
  ⟨by with_unfolding_all rfl,
   (c1_template_id_name_error benignCollab benignResume 1).2 (by with_unfolding_all rfl)⟩

/-- Claim C7: for every completed run, if an executed iteration has a
ScoreResult with truthy `approved` or `ats_score` at least 95, then that
iteration is the last one and the reported iterations count equals its
index. -/
theorem c7_stop_on_pass (c : Collab) (r0 : PyDict) (m i : ℕ)
    (hok : (align_resume_core c r0 m).isOk = true) (h0 : 0 < i)
    (hle : i ≤ coreIterations c r0 m) (hp : iterPasses c i = true) :
    i = coreIterations c r0 m ∧
    coreReportedIterations c r0 m = coreIterations c r0 m := by
  cases h : align_resume_core c r0 m with
  | error e => rw [h] at hok; cases hok
  | ok o =>
    obtain ⟨gap, hgap, hloop, hic, _, _⟩ := core_ok_spec c r0 m o h
    have hci : coreIterations c r0 m = o.state.iteration := by
      rw [coreIterations, h]
    have hcr : coreReportedIterations c r0 m = o.metrics.iterations_count := by
      rw [coreReportedIterations, h]
    refine ⟨?_, by rw [hcr, hci, hic]⟩
    by_contra hne
    have hlt : i < o.state.iteration := by
      rw [hci] at hle hne
      omega
    have hini : (initState r0 gap).iteration < i := h0
    have := runLoop_not_passes c m m _ _ hloop i hini hlt
    rw [this] at hp
    cases hp

/-- Witness for C7: a run whose second of three allowed iterations passes. -/
theorem c7_witness :
    (align_resume_core twoStepCollab benignResume 3).isOk = true ∧ 0 < 2 ∧
    2 ≤ coreIterations twoStepCollab benignResume 3 ∧
    iterPasses twoStepCollab 2 = true ∧
    2 = coreIterations twoStepCollab benignResume 3 ∧
    coreReportedIterations twoStepCollab benignResume 3 =
      coreIterations twoStepCollab benignResume 3 := by
  refine ⟨by with_unfolding_all rfl, by decide, by with_unfolding_all rfl,
    by with_unfolding_all rfl, ?_, ?_⟩
  · exact (c7_stop_on_pass twoStepCollab benignResume 3 2 (by with_unfolding_all rfl)
      (by decide) (by with_unfolding_all rfl) (by with_unfolding_all rfl)).1
  · exact (c7_stop_on_pass twoStepCollab benignResume 3 2 (by with_unfolding_all rfl)
      (by decide) (by with_unfolding_all rfl) (by with_unfolding_all rfl)).2

/-- Claim C8: for every completed run with `max_iterations` at least 1, the
executed iteration count lies between 1 and `max_iterations`, and the
`iterations_count` in the final metrics equals it. -/
theorem c8_iteration_bounds (c : Collab) (r0 : PyDict) (m : ℕ)
    (hm : 1 ≤ m) (hok : (align_resume_core c r0 m).isOk = true) :
    1 ≤ coreIterations c r0 m ∧ coreIterations c r0 m ≤ m ∧
    coreReportedIterations c r0 m = coreIterations c r0 m := by
  cases h : align_resume_core c r0 m with
  | error e => rw [h] at hok; cases hok
  | ok o =>
    obtain ⟨gap, hgap, hloop, hic, _, _⟩ := core_ok_spec c r0 m o h
    have hci : coreIterations c r0 m = o.state.iteration := by
      rw [coreIterations, h]
    have hcr : coreReportedIterations c r0 m = o.metrics.iterations_count := by
      rw [coreReportedIterations, h]
    have hle : (initState r0 gap).iteration ≤ m := Nat.zero_le m
    have h1 := runLoop_iteration_le c m m (initState r0 gap) o.state hloop hle
    have h2 := runLoop_iteration_gt c m m (initState r0 gap) o.state hloop hm
      (by simp [initState])
    exact ⟨by rw [hci]; exact h2, by rw [hci]; exact h1, by rw [hcr, hci, hic]⟩

/-- Witness for C8 at concrete collaborators. -/
theorem c8_witness :
    1 ≤ 3 ∧ (align_resume_core benignCollab benignResume 3).isOk = true ∧
    (1 ≤ coreIterations benignCollab benignResume 3 ∧
     coreIterations benignCollab benignResume 3 ≤ 3 ∧
     coreReportedIterations benignCollab benignResume 3 =
       coreIterations benignCollab benignResume 3) :=
  ⟨by decide, by with_unfolding_all rfl,
   c8_iteration_bounds benignCollab benignResume 3 (by decide) (by with_unfolding_all rfl)⟩

/-! ## Confidence lemmas (C9) -/

/-- The confidence a change item contributes to the sum: its numeric
`confidence_score`, or `0` when the key is missing. -/
def specConf (v : PyVal) : ℚ :=
  match v.toPairs with
  | some c =>
    match dictGet c "confidence_score" with
    | Option.none => 0
    | some w => (pyNum w).toOption.getD 0
  | Option.none => 0

theorem confTerm_eq_spec (v : PyVal) (h : (confTerm v).isOk = true) :
    confTerm v = .ok (specConf v) := by
  unfold confTerm at h ⊢
  unfold specConf
  cases hp : v.toPairs with
  | none => simp only [hp] at h; exact Bool.noConfusion h
  | some c =>
    simp only [hp] at h ⊢
    cases hg : dictGet c "confidence_score" with
    | none => simp only [hg]
    | some w =>
      simp only [hg] at h ⊢
      cases hn : pyNum w with
      | error e => rw [hn] at h; exact Bool.noConfusion h
      | ok q => simp [Except.toOption]

/-- Claim C9: `avg_confidence` is exactly 0 on an empty change list; a change
dict with no `confidence_score` key contributes exactly 0; and on a nonempty
list of well-typed changes the metric is exactly the arithmetic mean of the
contributed confidences. -/
theorem c9_avg_confidence :
    avgConfidence [] = .ok 0 ∧
    (∀ c : PyDict, hasKey c "confidence_score" = false →
      confTerm (PyVal.ofDict c) = .ok 0) ∧
    (∀ cs : List PyVal, cs ≠ [] → (∀ v ∈ cs, (confTerm v).isOk = true) →
      avgConfidence cs = .ok ((cs.map specConf).sum / (cs.length : ℚ))) := by
  refine ⟨by with_unfolding_all rfl, ?_, ?_⟩
  · intro c hc
    unfold confTerm
    rw [toPairs_ofDict]
    simp only []
    rw [hasKey] at hc
    cases hg : dictGet c "confidence_score" with
    | none => simp only [hg]
    | some w => rw [hg] at hc; exact Bool.noConfusion hc
  · intro cs hne hall
    unfold avgConfidence
    rw [emapM_ok_of_forall confTerm specConf cs (fun v hv => confTerm_eq_spec v (hall v hv))]
    have hpos : 1 ≤ cs.length := List.length_pos.mpr hne
    rw [Nat.max_eq_left hpos]

/-- Witness for C9 on a two-element change list, one change carrying a
confidence and one missing it. -/
theorem c9_witness :
    (([PyVal.ofDict [("confidence_score", .num (1/2))], PyVal.ofDict []] : List PyVal) ≠ []) ∧
    (∀ v ∈ ([PyVal.ofDict [("confidence_score", .num (1/2))], PyVal.ofDict []] : List PyVal),
      (confTerm v).isOk = true) ∧
    hasKey [] "confidence_score" = false ∧
    confTerm (PyVal.ofDict []) = .ok 0 ∧
    avgConfidence [PyVal.ofDict [("confidence_score", .num (1/2))], PyVal.ofDict []] =
      .ok ((([PyVal.ofDict [("confidence_score", .num (1/2))], PyVal.ofDict []] :
        List PyVal).map specConf).sum / (2 : ℚ)) := by
  refine ⟨by decide, by with_unfolding_all decide, rfl, c9_avg_confidence.2.1 [] rfl, ?_⟩
  exact c9_avg_confidence.2.2 _ (by decide) (by with_unfolding_all decide)

/-! ## Diff-length lemmas (C10) -/

theorem filterMap_length_eq {α β : Type} (f : α → Option β) (l : List α)
    (h : ∀ a ∈ l, (f a).isSome = true) : (l.filterMap f).length = l.length := by
  induction l with
  | nil => rfl
  | cons a t ih =>
    cases hf : f a with
    | none =>
      have := h a (List.mem_cons_self a t)
      rw [hf] at this
      exact Bool.noConfusion this
    | some b =>
      rw [List.filterMap_cons_some hf, List.length_cons, List.length_cons,
        ih (fun x hx => h x (List.mem_cons_of_mem a hx))]

/-- Claim C10 (amended): `total_changes` in successfully built metrics equals
the number of accumulated raw change items; the DiffObject list is never
longer, and it has the same length exactly when every item converts - a
failed conversion is skipped, making the returned ledger shorter. -/
theorem c10_total_changes (kw origKw ats : ℚ) (cs : List PyVal) (it : ℕ)
    (M : AlignmentMetrics) (h : mkMetrics kw origKw ats cs it = .ok M) :
    M.total_changes = cs.length ∧
    (build_diff_objects cs).length ≤ cs.length ∧
    ((∀ v ∈ cs, (tryDiff v).isSome = true) →
      (build_diff_objects cs).length = cs.length) := by
  refine ⟨(mkMetrics_fields _ _ _ _ _ _ h).2.2.2.1, ?_, ?_⟩
  · exact List.length_filterMap_le _ _
  · exact filterMap_length_eq tryDiff cs

/-- Witness for C10 on a single convertible change item. -/
theorem c10_witness :
    mkMetrics 0 0 50 [PyVal.ofDict [("section", .str "s")]] 1 =
      .ok ⟨0, 0, 50, 1, 1, 1, 0⟩ ∧
    (∀ v ∈ ([PyVal.ofDict [("section", .str "s")]] : List PyVal), (tryDiff v).isSome = true) ∧
    (⟨0, 0, 50, 1, 1, 1, 0⟩ : AlignmentMetrics).total_changes =
      ([PyVal.ofDict [("section", .str "s")]] : List PyVal).length ∧
    (build_diff_objects [PyVal.ofDict [("section", .str "s")]]).length =
      ([PyVal.ofDict [("section", .str "s")]] : List PyVal).length := by
  have h : mkMetrics 0 0 50 [PyVal.ofDict [("section", .str "s")]] 1 =
      .ok ⟨0, 0, 50, 1, 1, 1, 0⟩ := by with_unfolding_all rfl
  have hc := c10_total_changes 0 0 50 [PyVal.ofDict [("section", .str "s")]] 1 _ h
  exact ⟨h, by with_unfolding_all decide, hc.1, hc.2.2 (by with_unfolding_all decide)⟩

/-- Collaborators whose single rewrite emits two change items, one of which
fails `DiffObject` conversion (`section` is a number, not a string). -/
def c10Collab : Collab :=
  { jdResp := .ok []
    gapResp := .ok []
    rewriteResp := fun _ => .ok
      [("updated_resume", PyVal.ofDict [("full_name", .str "John Doe")]),
       ("changes", PyVal.ofList
         [PyVal.ofDict [("section", .str "skills"), ("confidence_score", .num (1/2))],
          PyVal.ofDict [("section", .num 5)]])]
    scoreResp := fun _ => .ok [("ats_score", .num 96)] }

/-- Counterexample for C10 as stated: a completed run whose rewrite emitted
two change items, one failing DiffObject conversion, reports
`total_changes = 2` while the returned change list has length 1. -/
theorem c10_counterexample :
    (align_resume_core c10Collab benignResume 1).toOption.map
      (fun o => (o.metrics.total_changes, o.diffs.length)) = some (2, 1) := by
  with_unfolding_all rfl

/-! ## Merge (C3) and scoring-input (C2) facts -/

/-- Base draft with two technical skills. -/
def c3Base : PyDict :=
  [("full_name", .str "Jane"),
   ("technical_skills", PyVal.ofList [.str "Python", .str "SQL"])]

/-- Candidate whose `technical_skills` is present but the empty list. -/
def c3Cand : PyDict :=
  [("full_name", .str "Jane"), ("technical_skills", PyVal.listNil)]

/-- Counterexample for C3 as stated: a candidate whose `technical_skills` is
present but the empty list overwrites the two skills of the base draft in the
merge - the merged value is the empty list, not the preserved base list. -/
theorem c3_counterexample :
    hasKey c3Cand "technical_skills" = true ∧
    pyTruthy PyVal.listNil = false ∧
    dictGet (dictUpdate c3Base c3Cand) "technical_skills" = some PyVal.listNil ∧
    PyVal.listNil ≠ PyVal.ofList [.str "Python", .str "SQL"] := by
  exact ⟨by with_unfolding_all rfl, rfl, by with_unfolding_all rfl, by decide⟩

/-- Claim C3 (amended): in the merge (`dict.update`), a top-level key absent
from the candidate retains the base value, while any key present in the
candidate - even with an empty value - takes the candidate value. -/
theorem c3_merge_amended (base cand : PyDict) (k : String) :
    (hasKey cand k = false → dictGet (dictUpdate base cand) k = dictGet base k) ∧
    ((cand.map Prod.fst).Nodup → hasKey cand k = true →
      dictGet (dictUpdate base cand) k = dictGet cand k) :=
  ⟨dictUpdate_get_absent base cand k,
   fun hnd hk => dictUpdate_get_present base cand k hnd hk⟩

/-- Witness for C3 (amended) on the concrete base and candidate. -/
theorem c3_witness :
    (hasKey c3Cand "summary" = false ∧
      dictGet (dictUpdate c3Base c3Cand) "summary" = dictGet c3Base "summary") ∧
    ((c3Cand.map Prod.fst).Nodup ∧ hasKey c3Cand "technical_skills" = true ∧
      dictGet (dictUpdate c3Base c3Cand) "technical_skills" =
        dictGet c3Cand "technical_skills") := by
  refine ⟨⟨by with_unfolding_all rfl,
    (c3_merge_amended c3Base c3Cand "summary").1 (by with_unfolding_all rfl)⟩,
    ⟨by decide, by with_unfolding_all rfl,
    (c3_merge_amended c3Base c3Cand "technical_skills").2 (by decide)
      (by with_unfolding_all rfl)⟩⟩

/-- Base draft for the C2 run: it has a summary the candidate lacks. -/
def c2Base : PyDict :=
  [("full_name", .str "Jane"), ("summary", .str "Original summary")]

/-- Candidate document returned by the rewrite collaborator in the C2 run. -/
def c2Cand : PyDict := [("full_name", .str "Jane")]

/-- Collaborators for the C2 run: one rewrite returning `c2Cand`, a failing
score. -/
def c2Collab : Collab :=
  { jdResp := .ok []
    gapResp := .ok []
    rewriteResp := fun _ => .ok
      [("updated_resume", PyVal.ofDict c2Cand), ("changes", PyVal.listNil)]
    scoreResp := fun _ => .ok
      [("ats_score", .num 40), ("critique", .str "needs work")] }

/-- Claim C2 theorem: in the concrete run the consistency check receives the
candidate dict `c2Cand` (not the merged draft, which still has the summary),
and the draft carried forward is also `c2Cand`. -/
theorem c2_scoring_gets_candidate :
    (runLoop c2Collab 1 1 (initState c2Base [])).toOption.map PipeState.scoreInputs =
      some [c2Cand] ∧
    (runLoop c2Collab 1 1 (initState c2Base [])).toOption.map PipeState.draft =
      some c2Cand ∧
    dictGet (dictUpdate c2Base c2Cand) "summary" = some (.str "Original summary") ∧
    dictGet c2Cand "summary" = Option.none ∧
    c2Cand ≠ dictUpdate c2Base c2Cand := by
  exact ⟨by with_unfolding_all rfl, by with_unfolding_all rfl,
    by with_unfolding_all rfl, rfl, by with_unfolding_all decide⟩

/-! ## Identity-field check (C4) -/

/-- A resume dump whose `full_name` is the empty string. -/
def c4Resume : PyDict := [("full_name", .str "")]

/-- Collaborators for the C4 run (the rewrite echoes the empty name). -/
def c4Collab : Collab :=
  { jdResp := .ok []
    gapResp := .ok []
    rewriteResp := fun _ => .ok
      [("updated_resume", PyVal.ofDict [("full_name", .str "")]),
       ("changes", PyVal.listNil)]
    scoreResp := fun _ => .ok [("ats_score", .num 96)] }

/-- Counterexample for C4 as stated: a run on a document with empty-string
`full_name` completes successfully - no `MissingRequiredField` failure - and
all four collaborator calls are made. -/
theorem c4_counterexample :
    dictGet c4Resume "full_name" = some (.str "") ∧
    (align_resume_core c4Collab c4Resume 1).isOk = true ∧
    (align_resume_core c4Collab c4Resume 1).toOption.map (fun o => o.state.calls) =
      some ["jd_analyzer", "gap_analyzer", "rewrite_agent", "consistency_checker"] := by
  exact ⟨rfl, by with_unfolding_all rfl, by with_unfolding_all rfl⟩

/-- Claim C4 (amended): `_dict_to_resume` raises the missing-required-field
`ValueError` exactly for drafts whose `full_name` key is absent; a present
but empty `full_name` passes the check. -/
theorem c4_full_name_check (d : PyDict) (h : hasKey d "full_name" = false) :
    dict_to_resume d = .error (.valueError missingFullNameMsg) ∧
    (dict_to_resume [("full_name", PyVal.str "")]).isOk = true := by
  constructor
  · unfold dict_to_resume
    rw [if_neg]
    simp [h]
  · with_unfolding_all rfl

/-- Witness for C4 (amended) on the empty draft. -/
theorem c4_witness :
    hasKey [] "full_name" = false ∧
    dict_to_resume [] = .error (.valueError missingFullNameMsg) ∧
    (dict_to_resume [("full_name", PyVal.str "")]).isOk = true :=
  ⟨rfl, (c4_full_name_check [] rfl).1, (c4_full_name_check [] rfl).2⟩

/-! ## Nested-entry conversion (C5) -/

/-- A well-formed Experience entry. -/
def goodExpDict : PyDict := [("company", .str "Acme"), ("title", .str "Engineer")]

/-- A malformed Experience entry: the required `company` field is missing. -/
def badExpDict : PyDict := [("title", .str "Manager")]

/-- A resume dict whose experiences list holds one good and one bad entry. -/
def c5ResumeDict : PyDict :=
  [("full_name", .str "Jane"),
   ("experiences", PyVal.ofList [PyVal.ofDict goodExpDict, PyVal.ofDict badExpDict])]

/-- Counterexample for C5 as stated: with one well-formed and one malformed
Experience entry, the conversion drops the whole list - including the
well-formed entry - yet `_dict_to_resume` still succeeds (non-fatal). -/
theorem c5_counterexample :
    (parseExperience goodExpDict).isOk = true ∧
    (parseExperience badExpDict).isOk = false ∧
    convertEntries parseExperience
      (PyVal.ofList [PyVal.ofDict goodExpDict, PyVal.ofDict badExpDict]) = [] ∧
    dict_to_resume c5ResumeDict =
      .ok ⟨"Jane", Option.none, [], [], [], [], [], [], [], [], []⟩ := by
  exact ⟨by with_unfolding_all rfl, by with_unfolding_all rfl,
    by with_unfolding_all rfl, by with_unfolding_all rfl⟩

/-- Claim C5 (amended): whenever any entry of the experiences list fails to
parse, the guarded conversion replaces the entire section with the empty
list (all entries are dropped, not only the failing one) and no exception
escapes. -/
theorem c5_section_emptied (l : List PyVal) (v : PyVal) (e : PyErr)
    (hv : v ∈ l) (he : entryConv parseExperience v = .error e) :
    convertEntries parseExperience (PyVal.ofList l) = [] := by
  unfold convertEntries
  have hi : pyIter (PyVal.ofList l) = .ok l := by
    unfold pyIter
    rw [toVals_ofList]
  rw [hi]
  simp only []
  obtain ⟨e2, h2⟩ := emapM_error_of_mem (entryConv parseExperience) l v hv e he
  rw [h2]

/-- Witness for C5 (amended) on the concrete good/bad entry pair. -/
theorem c5_witness :
    (PyVal.ofDict badExpDict ∈
      [PyVal.ofDict goodExpDict, PyVal.ofDict badExpDict]) ∧
    entryConv parseExperience (PyVal.ofDict badExpDict) =
      .error PyErr.validationError ∧
    convertEntries parseExperience
      (PyVal.ofList [PyVal.ofDict goodExpDict, PyVal.ofDict badExpDict]) = [] := by
  refine ⟨by decide, by with_unfolding_all rfl, ?_⟩
  exact c5_section_emptied [PyVal.ofDict goodExpDict, PyVal.ofDict badExpDict]
    (PyVal.ofDict badExpDict) PyErr.validationError (by decide)
    (by with_unfolding_all rfl)

/-! ## Unparseable scoring output (C6) -/

/-- Collaborators whose iteration-1 scoring output is unparseable text: the
check returns the defaulted dict instead of raising. -/
def c6Collab : Collab :=
  { jdResp := .ok []
    gapResp := .ok []
    rewriteResp := fun _ => .ok
      [("updated_resume", PyVal.ofDict [("full_name", .str "John Doe")]),
       ("changes", PyVal.listNil)]
    scoreResp := fun i =>
      if i = 1 then .ok (checkPostprocess false "garbage" Option.none)
      else .ok [("ats_score", .num 96)] }

/-- Claim C6 theorem: a scoring response that fails JSON parsing yields the
defaulted result (ats 0, not approved) and the run continues to the next
iteration and completes - no error is raised. -/
theorem c6_unparsed_not_fatal :
    checkPostprocess false "garbage" Option.none = unparsedConsistencyResult "garbage" ∧
    pyGetD (unparsedConsistencyResult "garbage") "ats_score" (.num 0) = .num 0 ∧
    pyGetD (unparsedConsistencyResult "garbage") "approved" (.bool false) = .bool false ∧
    (align_resume_core c6Collab benignResume 2).isOk = true ∧
    coreIterations c6Collab benignResume 2 = 2 := by
  exact ⟨by with_unfolding_all rfl, by with_unfolding_all rfl, by with_unfolding_all rfl,
    by with_unfolding_all rfl, by with_unfolding_all rfl⟩
